import Mathlib

/-!
Verification of the key/certificate object model and cryptographic operation
pipeline of oscrypto (OS X backend, file oscrypto/_osx/public_key.py).

The Python module drives a native security service. We embed it shallowly:
every native interaction is recorded as an event in an explicit state, and the
outcome of each fallible native call is supplied by an oracle, so that theorems
can quantify over all possible native behaviours. Python exceptions become an
Except value; the distinct Python exception classes become distinct
constructors of PyError.
-/

/-- Byte strings are lists of byte values. -/
def Bytes := List Nat
deriving DecidableEq, Repr

/-- The Python exception classes reachable in this module. ValueError and
PrivateKeyError are the contract-violation failures, osError stands for the
OSError raised by handle_cf_error and handle_sec_error on a non-success
native status, signatureError is oscrypto.errors.SignatureError, keyError is
the KeyError of a failed dict lookup, and nameError is the UnboundLocalError
or NameError raised when an unassigned local is evaluated. -/
inductive PyError where
  | valueError (msg : String)
  | osError (msg : String)
  | signatureError (msg : String)
  | privateKeyError (msg : String)
  | keyError (key : String)
  | nameError (name : String)
deriving DecidableEq, Repr

/-- The four kinds of Sec transform objects created by the staged pipelines. -/
inductive TKind where
  | encrypt
  | decrypt
  | sign
  | verify
deriving DecidableEq, Repr

/-- Kinds of native objects created by the module: wrapped input data, wrapped
signature bytes, wrapped digest-length number, transform output data, wrapped
encoded key or certificate source, the attribute dictionary, key references,
certificate references, and transform objects. -/
inductive ObjKind where
  | inData
  | sigData
  | numData
  | outData
  | srcData
  | dictData
  | keyRef
  | certRef
  | tf (k : TKind)
deriving DecidableEq, Repr

/-- The native digest-type constants: kSecDigestMD5, kSecDigestSHA1, and the
single SHA-2 family constant kSecDigestSHA2. -/
inductive DigestConst where
  | md5
  | sha1
  | sha2
deriving DecidableEq, Repr

/-- The padding constants used with transforms: kSecPaddingPKCS1Key,
kSecPaddingOAEPKey and kSecPaddingNoneKey. -/
inductive Padding where
  | pkcs1
  | oaep
  | noneKey
deriving DecidableEq, Repr

/-- Transform attribute names: kSecDigestTypeAttribute,
kSecDigestLengthAttribute, kSecPaddingKey and
kSecTransformInputAttributeName. -/
inductive AttrName where
  | digestType
  | digestLength
  | paddingAttr
  | inputAttr
deriving DecidableEq, Repr

/-- Values passed to SecTransformSetAttribute. -/
inductive AttrVal where
  | digest (d : DigestConst)
  | numRef (id : Nat) (value : Nat)
  | pad (p : Padding)
  | dataRef (id : Nat)
deriving DecidableEq, Repr

/-- One native interaction: creation of a native object, setting a transform
attribute, executing a transform, or releasing a native object via
CFRelease. -/
inductive Event where
  | create (k : ObjKind) (id : Nat)
  | setAttr (t : Nat) (a : AttrName) (v : AttrVal)
  | execute (t : Nat)
  | release (id : Nat)
deriving DecidableEq, Repr

/-- Explicit state threaded through every embedded function: a supply of fresh
native object identifiers, a counter of fallible native calls (used to index
the oracle), and the trace of native interactions so far. -/
structure St where
  nextId : Nat
  ncalls : Nat
  trace : List Event
deriving DecidableEq, Repr

/-- The initial state: no native object exists and nothing has happened. -/
def initSt : St := ⟨0, 0, []⟩

/-- The behaviour of the native service during one run: whether the i-th
fallible native call sets its error reference, the data produced by the i-th
call when it is a transform execution, and the boolean produced when it is a
verify-transform execution. -/
structure Oracle where
  cfFail : Nat → Bool
  execBytes : Nat → Bytes
  verifyOut : Nat → Bool

/-- The oracle under which every native call succeeds, executions return no
data and verification returns true. -/
def successOracle : Oracle := ⟨fun _ => false, fun _ => [], fun _ => true⟩

/-- Creation of a native object that cannot fail (CFData from bytes, CFNumber
from an integer, the CFDictionary of attributes): allocates a fresh identifier
and records the creation. -/
def createObj (k : ObjKind) (s : St) : Nat × St :=
  (s.nextId, ⟨s.nextId + 1, s.ncalls, s.trace ++ [Event.create k s.nextId]⟩)

/-- A native constructor followed by handle_cf_error: on oracle failure the
error reference is set and an OSError is raised with no object created; on
success a fresh reference of the given kind is returned. -/
def createChecked (k : ObjKind) (o : Oracle) (s : St) : Except PyError Nat × St :=
  if o.cfFail s.ncalls then
    (Except.error (PyError.osError "native object creation failed"),
      ⟨s.nextId, s.ncalls + 1, s.trace⟩)
  else
    (Except.ok s.nextId,
      ⟨s.nextId + 1, s.ncalls + 1, s.trace ++ [Event.create k s.nextId]⟩)

/-- SecTransformSetAttribute followed by handle_cf_error: the call is always
recorded; the oracle decides whether the error reference was set. -/
def setAttrC (t : Nat) (a : AttrName) (v : AttrVal) (o : Oracle) (s : St) :
    Except PyError Unit × St :=
  let s1 : St := ⟨s.nextId, s.ncalls + 1, s.trace ++ [Event.setAttr t a v]⟩
  if o.cfFail s.ncalls then
    (Except.error (PyError.osError "set attribute failed"), s1)
  else
    (Except.ok (), s1)

/-- SecTransformExecute followed by handle_cf_error, for transforms whose
output is a data object: on success the output is wrapped in a fresh native
object of the given kind and its bytes are those chosen by the oracle. -/
def executeData (t : Nat) (k : ObjKind) (o : Oracle) (s : St) :
    Except PyError (Nat × Bytes) × St :=
  let s1 : St := ⟨s.nextId, s.ncalls + 1, s.trace ++ [Event.execute t]⟩
  if o.cfFail s.ncalls then
    (Except.error (PyError.osError "transform execution failed"), s1)
  else
    (Except.ok (s1.nextId, o.execBytes s.ncalls),
      ⟨s1.nextId + 1, s1.ncalls, s1.trace ++ [Event.create k s1.nextId]⟩)

/-- SecTransformExecute followed by handle_cf_error, for the verify transform
whose output is a CFBoolean (a shared constant, not an owned object). -/
def executeBool (t : Nat) (o : Oracle) (s : St) : Except PyError Bool × St :=
  let s1 : St := ⟨s.nextId, s.ncalls + 1, s.trace ++ [Event.execute t]⟩
  if o.cfFail s.ncalls then
    (Except.error (PyError.osError "transform execution failed"), s1)
  else
    (Except.ok (o.verifyOut s.ncalls), s1)

/-- CFRelease of one native reference. -/
def releaseObj (r : Nat) (s : St) : St :=
  ⟨s.nextId, s.ncalls, s.trace ++ [Event.release r]⟩

/-- The pattern if x: CFRelease(x) used in every finally block. -/
def releaseOpt : Option Nat → St → St
  | some r, s => releaseObj r s
  | none, s => s

/-- A Python dict lookup d[k]: raises KeyError when the key is absent. -/
def dictGet (d : String → Option α) (k : String) : Except PyError α :=
  match d k with
  | some v => Except.ok v
  | none => Except.error (PyError.keyError k)

/-! ## Parsed structured objects and handles -/

/-- Whether a parsed key structure is an asn1crypto PublicKeyInfo or
PrivateKeyInfo instance. -/
inductive KeyCls where
  | pub
  | priv
deriving DecidableEq, Repr

/-- The parsed key structure produced by the external ASN.1 parser: the
algorithm tag, the curve description as a pair of type tag and curve name
(meaningful for EC keys), the associated hash_algo (meaningful for DSA keys),
the bit and byte sizes, and whether the structure is a public or private key
info. -/
structure KeyObject where
  algorithm : String
  curve : String × String
  hash_algo : String
  bit_size : Nat
  byte_size : Nat
  cls : KeyCls
deriving DecidableEq, Repr

/-- The parsed certificate structure: its subject public key info and an
identity payload standing for the remaining certificate contents. -/
structure CertObject where
  spki : KeyObject
  payload : Nat
deriving DecidableEq, Repr

/-- The PrivateKey and PublicKey containers: an owned native key reference
(none once released) and the parsed key structure. PublicKey inherits from
PrivateKey in the source and adds nothing, so one structure covers both; the
cls field of the key structure tells them apart. -/
structure KeyHandle where
  sec_key_ref : Option Nat
  asn1 : KeyObject
deriving DecidableEq, Repr

/-- The algo property: delegates to the parsed structure. -/
def KeyHandle.algo (k : KeyHandle) : String := k.asn1.algorithm

/-- The bit_size property: delegates to the parsed structure. -/
def KeyHandle.bit_size (k : KeyHandle) : Nat := k.asn1.bit_size

/-- The byte_size property: delegates to the parsed structure. -/
def KeyHandle.byte_size (k : KeyHandle) : Nat := k.asn1.byte_size

/-- The del finalizer of PrivateKey and PublicKey: if the native reference is
still held, release it and null the field; otherwise do nothing. Returns the
updated handle and the release events performed. -/
def KeyHandle.del (k : KeyHandle) : KeyHandle × List Event :=
  match k.sec_key_ref with
  | some r => (⟨none, k.asn1⟩, [Event.release r])
  | none => (k, [])

/-- The Certificate container: an owned native certificate reference, the
parsed certificate, and the lazily computed derived public key (none until
first access). -/
structure Certificate where
  sec_certificate_ref : Option Nat
  asn1 : CertObject
  publicKeyCache : Option KeyHandle
deriving DecidableEq, Repr

/-- The del finalizer of Certificate: first tears down the derived public key
if it was computed and nulls the cache, then releases the certificate
reference itself if still held. Returns the updated handle and the release
events performed, in order. -/
def Certificate.del (c : Certificate) : Certificate × List Event :=
  let (pubEvents, c1) : List Event × Certificate :=
    match c.publicKeyCache with
    | some pk =>
      ((KeyHandle.del pk).snd, Certificate.mk c.sec_certificate_ref c.asn1 none)
    | none => ([], c)
  match c1.sec_certificate_ref with
  | some r => (⟨none, c1.asn1, c1.publicKeyCache⟩, pubEvents ++ [Event.release r])
  | none => (c1, pubEvents)

/-! ## Algorithm policy tables -/

/-- The set of hash names accepted by the sign and verify pipelines. -/
def supported_hashes : List String :=
  ["md5", "sha1", "sha224", "sha256", "sha384", "sha512"]

/-- The SHA-2 family members, which need the extra digest-length attribute. -/
def sha2_hashes : List String := ["sha224", "sha256", "sha384", "sha512"]

/-- The digest-type dict literal appearing identically in the sign and verify
pipelines: md5 and sha1 get dedicated constants, every SHA-2 family member
maps to the single kSecDigestSHA2 constant. -/
def hash_constant : String → Option DigestConst
  | "md5" => some DigestConst.md5
  | "sha1" => some DigestConst.sha1
  | "sha224" => some DigestConst.sha2
  | "sha256" => some DigestConst.sha2
  | "sha384" => some DigestConst.sha2
  | "sha512" => some DigestConst.sha2
  | _ => none

/-- The digest bit-length dict literal appearing identically in the sign and
verify pipelines, consulted only for the SHA-2 family. -/
def sha2_length : String → Option Nat
  | "sha224" => some 224
  | "sha256" => some 256
  | "sha384" => some 384
  | "sha512" => some 512
  | _ => none

/-- The PSS hash byte-length lookup used by rsa_pss_sign and rsa_pss_verify:
a dict get with default 0, so md5 and unknown names yield 0. -/
def pss_hash_length : String → Nat
  | "sha1" => 20
  | "sha224" => 28
  | "sha256" => 32
  | "sha384" => 48
  | "sha512" => 64
  | _ => 0

/-- The named curves accepted for EC keys. -/
def supported_curves : List String := ["secp256r1", "secp384r1", "secp521r1"]

/-- The kSecAttrKeyType dict literal of the loader, keyed by algorithm. -/
def key_type_map : String → Option Unit
  | "dsa" => some ()
  | "ec" => some ()
  | "rsa" => some ()
  | _ => none

/-! ## The external PSS padding primitive -/

/-- Modelled from the spec: the bit-level PSS block construction performed by
the external padding primitive (oscrypto/_pkcs1.py, not part of the provided
sources) is out of scope, so we stand in an injective encoding of its
arguments. -/
def pssBlock (hashLen keyBits : Nat) (message : Bytes) : Bytes :=
  (1 :: hashLen :: keyBits :: message : List Nat)

/-- Modelled from the spec: add_pss_padding(hash, hash_len, key_bits, message)
from oscrypto/_pkcs1.py, which is not part of the provided sources. Per the
spec, hash names whose byte length is passed as 0 (md5 and anything unlisted)
are rejected by the primitive as a contract violation; otherwise it returns
the PSS-encoded block for the arguments. -/
def add_pss_padding (h : String) (hashLen keyBits : Nat) (message : Bytes) :
    Except PyError Bytes :=
  if hashLen = 0 then
    Except.error (PyError.valueError "unsupported hash algorithm for PSS padding")
  else
    Except.ok (pssBlock hashLen keyBits message)

/-- Modelled from the spec: verify_pss_padding(hash, hash_len, key_bits,
message, block) from oscrypto/_pkcs1.py, which is not part of the provided
sources. It rejects a hash byte length of 0 and otherwise reports whether the
block is the PSS encoding of the message. The unused hash-name argument keeps
the call shape of the source. -/
def verify_pss_padding (h : String) (hashLen keyBits : Nat)
    (message block : Bytes) : Except PyError Bool :=
  if hashLen = 0 then
    Except.error (PyError.valueError "unsupported hash algorithm for PSS padding")
  else
    Except.ok (decide (block = pssBlock hashLen keyBits message))

/-! ## The staged operation pipelines

Each pipeline is split into a body, which threads the Python locals that the
finally block inspects, and the finally block itself, which releases whatever
the locals hold at the exit point, in the exact order written in the source.
The guards preceding the try block stay in the outer function. The isinstance
guards of the source are enforced by the Lean types and therefore always
pass. The padding arguments are the non-null kSecPadding constants, so the
truthiness tests the source applies to them are always true. -/

/-- The locals of the encrypt and decrypt pipelines: cf_data and
sec_transform, in creation order. -/
structure EncLocals where
  cf_data : Option Nat
  sec_transform : Option Nat
deriving DecidableEq, Repr

/-- The finally block shared by _encrypt and _decrypt: release cf_data if
assigned, then sec_transform if assigned. -/
def encFinally (l : EncLocals) (s : St) : St :=
  releaseOpt l.sec_transform (releaseOpt l.cf_data s)

/-- The try body of _encrypt: wrap the plaintext, create the encrypt
transform, set the padding attribute, set the input attribute, execute, and
return the output bytes. -/
def encBody (key : KeyHandle) (data : Bytes) (padding : Padding) (o : Oracle)
    (s : St) : Except PyError Bytes × EncLocals × St :=
  let (cf_data, s1) := createObj ObjKind.inData s
  let l1 : EncLocals := ⟨some cf_data, none⟩
  match createChecked (ObjKind.tf TKind.encrypt) o s1 with
  | (Except.error e, s2) => (Except.error e, l1, s2)
  | (Except.ok sec_transform, s2) =>
  let l2 : EncLocals := ⟨some cf_data, some sec_transform⟩
  match setAttrC sec_transform AttrName.paddingAttr (AttrVal.pad padding) o s2 with
  | (Except.error e, s3) => (Except.error e, l2, s3)
  | (Except.ok _, s3) =>
  match setAttrC sec_transform AttrName.inputAttr (AttrVal.dataRef cf_data) o s3 with
  | (Except.error e, s4) => (Except.error e, l2, s4)
  | (Except.ok _, s4) =>
  match executeData sec_transform ObjKind.outData o s4 with
  | (Except.error e, s5) => (Except.error e, l2, s5)
  | (Except.ok res, s5) => (Except.ok res.snd, l2, s5)

/-- The _encrypt pipeline: guards, then the try body, then the finally
block on every exit path. -/
def _encrypt (key : KeyHandle) (data : Bytes) (padding : Padding)
    (o : Oracle) (s : St) : Except PyError Bytes × St :=
  let (r, l, s1) := encBody key data padding o s
  (r, encFinally l s1)

/-- The try body of _decrypt: wrap the ciphertext, create the decrypt
transform, set the padding attribute, set the input attribute, execute, and
return the output bytes. -/
def decBody (key : KeyHandle) (ciphertext : Bytes) (padding : Padding)
    (o : Oracle) (s : St) : Except PyError Bytes × EncLocals × St :=
  let (cf_data, s1) := createObj ObjKind.inData s
  let l1 : EncLocals := ⟨some cf_data, none⟩
  match createChecked (ObjKind.tf TKind.decrypt) o s1 with
  | (Except.error e, s2) => (Except.error e, l1, s2)
  | (Except.ok sec_transform, s2) =>
  let l2 : EncLocals := ⟨some cf_data, some sec_transform⟩
  match setAttrC sec_transform AttrName.paddingAttr (AttrVal.pad padding) o s2 with
  | (Except.error e, s3) => (Except.error e, l2, s3)
  | (Except.ok _, s3) =>
  match setAttrC sec_transform AttrName.inputAttr (AttrVal.dataRef cf_data) o s3 with
  | (Except.error e, s4) => (Except.error e, l2, s4)
  | (Except.ok _, s4) =>
  match executeData sec_transform ObjKind.outData o s4 with
  | (Except.error e, s5) => (Except.error e, l2, s5)
  | (Except.ok res, s5) => (Except.ok res.snd, l2, s5)

/-- The _decrypt pipeline: guards, then the try body, then the finally
block on every exit path. -/
def _decrypt (key : KeyHandle) (ciphertext : Bytes) (padding : Padding)
    (o : Oracle) (s : St) : Except PyError Bytes × St :=
  let (r, l, s1) := decBody key ciphertext padding o s
  (r, encFinally l s1)

/-- The locals of the sign and verify pipelines, in the declaration order of
the source: cf_signature, cf_data, cf_hash_length, sec_transform. -/
structure SigLocals where
  cf_signature : Option Nat
  cf_data : Option Nat
  cf_hash_length : Option Nat
  sec_transform : Option Nat
deriving DecidableEq, Repr

/-- The finally block shared by _sign and _verify: release sec_transform,
then cf_signature, then cf_data, then cf_hash_length, each if assigned. -/
def sigFinally (l : SigLocals) (s : St) : St :=
  releaseOpt l.cf_hash_length
    (releaseOpt l.cf_data (releaseOpt l.cf_signature (releaseOpt l.sec_transform s)))

/-- The SHA-2 family step of the sign and verify pipelines: when the hash is
in the SHA-2 family, look up its bit length, wrap it in a CFNumber and set it
as the digest-length attribute. Returns the created CFNumber reference (if
any) alongside the outcome, because the finally block must release it even
when the attribute call fails. -/
def setSha2Length (t : Nat) (h : String) (o : Oracle) (s : St) :
    Except PyError Unit × Option Nat × St :=
  if h ∈ sha2_hashes then
    match dictGet sha2_length h with
    | Except.error e => (Except.error e, none, s)
    | Except.ok n =>
      let (num, s1) := createObj ObjKind.numData s
      match setAttrC t AttrName.digestLength (AttrVal.numRef num n) o s1 with
      | (r, s2) => (r, some num, s2)
  else
    (Except.ok (), none, s)

/-- The try body of _verify: wrap the signature, create the verify transform
over it, set the digest type (and digest length for the SHA-2 family), set
PKCS1 padding when the key is RSA, wrap and set the input data, execute, and
translate a false boolean outcome into a SignatureError. -/
def verifyBody (key : KeyHandle) (signature data : Bytes) (h : String)
    (o : Oracle) (s : St) : Except PyError Unit × SigLocals × St :=
  let (cf_signature, s1) := createObj ObjKind.sigData s
  let l1 : SigLocals := ⟨some cf_signature, none, none, none⟩
  match createChecked (ObjKind.tf TKind.verify) o s1 with
  | (Except.error e, s2) => (Except.error e, l1, s2)
  | (Except.ok sec_transform, s2) =>
  let l2 : SigLocals := ⟨some cf_signature, none, none, some sec_transform⟩
  match dictGet hash_constant h with
  | Except.error e => (Except.error e, l2, s2)
  | Except.ok hc =>
  match setAttrC sec_transform AttrName.digestType (AttrVal.digest hc) o s2 with
  | (Except.error e, s3) => (Except.error e, l2, s3)
  | (Except.ok _, s3) =>
  match setSha2Length sec_transform h o s3 with
  | (Except.error e, numOpt, s4) =>
    (Except.error e, ⟨some cf_signature, none, numOpt, some sec_transform⟩, s4)
  | (Except.ok _, numOpt, s4) =>
  let l3 : SigLocals := ⟨some cf_signature, none, numOpt, some sec_transform⟩
  match (if key.algo = "rsa" then
      setAttrC sec_transform AttrName.paddingAttr (AttrVal.pad Padding.pkcs1) o s4
    else (Except.ok (), s4)) with
  | (Except.error e, s5) => (Except.error e, l3, s5)
  | (Except.ok _, s5) =>
  let (cf_data, s6) := createObj ObjKind.inData s5
  let l4 : SigLocals := ⟨some cf_signature, some cf_data, numOpt, some sec_transform⟩
  match setAttrC sec_transform AttrName.inputAttr (AttrVal.dataRef cf_data) o s6 with
  | (Except.error e, s7) => (Except.error e, l4, s7)
  | (Except.ok _, s7) =>
  match executeBool sec_transform o s7 with
  | (Except.error e, s8) => (Except.error e, l4, s8)
  | (Except.ok res, s8) =>
    if res then (Except.ok (), l4, s8)
    else (Except.error (PyError.signatureError "Signature is invalid"), l4, s8)

/-- The _verify pipeline: the hash-name guard precedes the try block; then
the body runs and the finally block releases on every exit path. -/
def _verify (key : KeyHandle) (signature data : Bytes) (h : String)
    (o : Oracle) (s : St) : Except PyError Unit × St :=
  if h ∈ supported_hashes then
    let (r, l, s1) := verifyBody key signature data h o s
    (r, sigFinally l s1)
  else
    (Except.error (PyError.valueError
      "hash_algorithm must be one of md5, sha1, sha224, sha256, sha384, sha512"), s)

/-- The try body of _sign: create the sign transform, set the digest type
(and digest length for the SHA-2 family), set PKCS1 padding when the key is
RSA, wrap and set the input data, execute, and return the signature bytes;
the executed output is the cf_signature local released by the finally
block. -/
def signBody (key : KeyHandle) (data : Bytes) (h : String) (o : Oracle)
    (s : St) : Except PyError Bytes × SigLocals × St :=
  let l0 : SigLocals := ⟨none, none, none, none⟩
  match createChecked (ObjKind.tf TKind.sign) o s with
  | (Except.error e, s1) => (Except.error e, l0, s1)
  | (Except.ok sec_transform, s1) =>
  let l1 : SigLocals := ⟨none, none, none, some sec_transform⟩
  match dictGet hash_constant h with
  | Except.error e => (Except.error e, l1, s1)
  | Except.ok hc =>
  match setAttrC sec_transform AttrName.digestType (AttrVal.digest hc) o s1 with
  | (Except.error e, s2) => (Except.error e, l1, s2)
  | (Except.ok _, s2) =>
  match setSha2Length sec_transform h o s2 with
  | (Except.error e, numOpt, s3) =>
    (Except.error e, ⟨none, none, numOpt, some sec_transform⟩, s3)
  | (Except.ok _, numOpt, s3) =>
  let l2 : SigLocals := ⟨none, none, numOpt, some sec_transform⟩
  match (if key.algo = "rsa" then
      setAttrC sec_transform AttrName.paddingAttr (AttrVal.pad Padding.pkcs1) o s3
    else (Except.ok (), s3)) with
  | (Except.error e, s4) => (Except.error e, l2, s4)
  | (Except.ok _, s4) =>
  let (cf_data, s5) := createObj ObjKind.inData s4
  let l3 : SigLocals := ⟨none, some cf_data, numOpt, some sec_transform⟩
  match setAttrC sec_transform AttrName.inputAttr (AttrVal.dataRef cf_data) o s5 with
  | (Except.error e, s6) => (Except.error e, l3, s6)
  | (Except.ok _, s6) =>
  match executeData sec_transform ObjKind.sigData o s6 with
  | (Except.error e, s7) => (Except.error e, l3, s7)
  | (Except.ok res, s7) =>
    (Except.ok res.snd, ⟨some res.fst, some cf_data, numOpt, some sec_transform⟩, s7)

/-- The _sign pipeline: the hash-name guard precedes the try block; then the
body runs and the finally block releases on every exit path. -/
def _sign (key : KeyHandle) (data : Bytes) (h : String) (o : Oracle)
    (s : St) : Except PyError Bytes × St :=
  if h ∈ supported_hashes then
    let (r, l, s1) := signBody key data h o s
    (r, sigFinally l s1)
  else
    (Except.error (PyError.valueError
      "hash_algorithm must be one of md5, sha1, sha256, sha384, sha512"), s)

/-! ## Public signing and verification entry points -/

/-- rsa_pkcs1v15_verify: reject a key whose algorithm is not rsa, then run
the verify pipeline. -/
def rsa_pkcs1v15_verify (key : KeyHandle) (signature data : Bytes)
    (h : String) (o : Oracle) (s : St) : Except PyError Unit × St :=
  if key.algo ≠ "rsa" then
    (Except.error (PyError.valueError "The key specified is not an RSA public key"), s)
  else
    _verify key signature data h o s

/-- dsa_verify: reject a key whose algorithm is not dsa, then run the verify
pipeline. -/
def dsa_verify (key : KeyHandle) (signature data : Bytes) (h : String)
    (o : Oracle) (s : St) : Except PyError Unit × St :=
  if key.algo ≠ "dsa" then
    (Except.error (PyError.valueError "The key specified is not a DSA public key"), s)
  else
    _verify key signature data h o s

/-- ecdsa_verify: reject a key whose algorithm is not ec, then run the verify
pipeline. -/
def ecdsa_verify (key : KeyHandle) (signature data : Bytes) (h : String)
    (o : Oracle) (s : St) : Except PyError Unit × St :=
  if key.algo ≠ "ec" then
    (Except.error (PyError.valueError "The key specified is not an EC public key"), s)
  else
    _verify key signature data h o s

/-- rsa_pss_verify: after the type and algorithm guards, look up the PSS hash
byte length with default 0, recover the padded block by a raw no-padding
encrypt-direction operation on the public key, and ask the external primitive
to verify the block; a false verdict raises SignatureError. -/
def rsa_pss_verify (key : KeyHandle) (signature data : Bytes) (h : String)
    (o : Oracle) (s : St) : Except PyError Unit × St :=
  if key.algo ≠ "rsa" then
    (Except.error (PyError.valueError "The key specified is not an RSA public key"), s)
  else
    match _encrypt key signature Padding.noneKey o s with
    | (Except.error e, s1) => (Except.error e, s1)
    | (Except.ok plaintext, s1) =>
      match verify_pss_padding h (pss_hash_length h) key.bit_size data plaintext with
      | Except.error e => (Except.error e, s1)
      | Except.ok true => (Except.ok (), s1)
      | Except.ok false =>
        (Except.error (PyError.signatureError "Signature is invalid"), s1)

/-- rsa_pkcs1v15_sign: reject a key whose algorithm is not rsa, then run the
sign pipeline. -/
def rsa_pkcs1v15_sign (key : KeyHandle) (data : Bytes) (h : String)
    (o : Oracle) (s : St) : Except PyError Bytes × St :=
  if key.algo ≠ "rsa" then
    (Except.error (PyError.valueError "The key specified is not an RSA private key"), s)
  else
    _sign key data h o s

/-- dsa_sign: reject a key whose algorithm is not dsa, then run the sign
pipeline. -/
def dsa_sign (key : KeyHandle) (data : Bytes) (h : String) (o : Oracle)
    (s : St) : Except PyError Bytes × St :=
  if key.algo ≠ "dsa" then
    (Except.error (PyError.valueError "The key specified is not a DSA private key"), s)
  else
    _sign key data h o s

/-- ecdsa_sign: reject a key whose algorithm is not ec, then run the sign
pipeline. -/
def ecdsa_sign (key : KeyHandle) (data : Bytes) (h : String) (o : Oracle)
    (s : St) : Except PyError Bytes × St :=
  if key.algo ≠ "ec" then
    (Except.error (PyError.valueError "The key specified is not an EC private key"), s)
  else
    _sign key data h o s

/-- rsa_pss_sign: after the type and algorithm guards, look up the PSS hash
byte length with default 0, compute the PSS-encoded block externally, and
perform a raw no-padding decrypt-direction operation on the private key over
that block. -/
def rsa_pss_sign (key : KeyHandle) (data : Bytes) (h : String) (o : Oracle)
    (s : St) : Except PyError Bytes × St :=
  if key.algo ≠ "rsa" then
    (Except.error (PyError.valueError "The key specified is not an RSA private key"), s)
  else
    match add_pss_padding h (pss_hash_length h) key.bit_size data with
    | Except.error e => (Except.error e, s)
    | Except.ok encoded_data => _decrypt key encoded_data Padding.noneKey o s

/-! ## Loaders -/

/-- The locals of the _load_key try block: cf_source and cf_dict (the
cf_output local of the source is never assigned and is omitted). -/
structure LoadLocals where
  cf_source : Option Nat
  cf_dict : Option Nat
deriving DecidableEq, Repr

/-- The finally block of _load_key: release cf_source if assigned, then
cf_dict if assigned. -/
def loadFinally (l : LoadLocals) (s : St) : St :=
  releaseOpt l.cf_dict (releaseOpt l.cf_source s)

/-- The try body of _load_key: wrap the re-serialized key bytes, look up the
key-type constant by algorithm, build the attribute dictionary, and call
SecKeyCreateFromData checked by handle_cf_error; success wraps the native
reference in the handle together with the parsed structure. -/
def loadKeyBody (ko : KeyObject) (o : Oracle) (s : St) :
    Except PyError KeyHandle × LoadLocals × St :=
  let (cf_source, s1) := createObj ObjKind.srcData s
  let l1 : LoadLocals := ⟨some cf_source, none⟩
  match dictGet key_type_map ko.algorithm with
  | Except.error e => (Except.error e, l1, s1)
  | Except.ok _ =>
  let (cf_dict, s2) := createObj ObjKind.dictData s1
  let l2 : LoadLocals := ⟨some cf_source, some cf_dict⟩
  match createChecked ObjKind.keyRef o s2 with
  | (Except.error e, s3) => (Except.error e, l2, s3)
  | (Except.ok ref, s3) => (Except.ok (KeyHandle.mk (some ref) ko), l2, s3)

/-- _load_key: the EC named-curve and DSA hash policy checks run before any
native call; then the try body runs and the finally block releases on every
exit path. -/
def _load_key (ko : KeyObject) (o : Oracle) (s : St) :
    Except PyError KeyHandle × St :=
  if ko.algorithm = "ec" ∧ ko.curve.fst ≠ "named" then
    (Except.error (PyError.privateKeyError
      "OS X only supports EC keys using named curves"), s)
  else if ko.algorithm = "ec" ∧ ko.curve.snd ∉ supported_curves then
    (Except.error (PyError.privateKeyError
      "OS X only supports EC keys using the named curves secp256r1, secp384r1 and secp521r1"), s)
  else if ko.algorithm ≠ "ec" ∧ ko.algorithm = "dsa" ∧ ko.hash_algo = "sha2" then
    (Except.error (PyError.privateKeyError
      "OS X only supports DSA keys based on SHA1"), s)
  else
    let (r, l, s1) := loadKeyBody ko o s
    (r, loadFinally l s1)

/-- _load_x509: wrap the re-serialized certificate bytes, call
SecCertificateCreateWithData (the source checks no error for this call),
build the Certificate container, and release the wrapped bytes. -/
def _load_x509 (cert : CertObject) (s : St) : Certificate × St :=
  let (cf_source, s1) := createObj ObjKind.srcData s
  let (ref, s2) := createObj ObjKind.certRef s1
  (Certificate.mk (some ref) cert none, releaseObj cf_source s2)

/-- A source argument for the key loaders: a parsed key structure, a byte
string, a unicode string filename, or a value of any other type (carrying its
type name for the error message). -/
inductive KeySource where
  | info (k : KeyObject)
  | bytes (b : Bytes)
  | path (p : String)
  | other (typeName : String)

/-- A password argument: unicode text, a byte string, or a value of another
type. -/
inductive Pwd where
  | text (t : String)
  | raw (b : Bytes)
  | badType (typeName : String)

/-- The external collaborators of the loaders: the ASN.1 parsing functions
(each returning the parsed object and unconsumed trailing bytes) and file
reading. They are abstract inputs of the embedding. -/
structure Externals where
  parse_public : Bytes → Except PyError (KeyObject × Bytes)
  parse_private : Bytes → Option Bytes → Except PyError (KeyObject × Bytes)
  readFile : String → Bytes

/-- UTF-8 encoding of a unicode password, abstracted to its code points. -/
def utf8 (t : String) : Bytes := t.data.map Char.toNat

/-- Password normalization in load_private_key: unicode text is encoded as
UTF-8, byte strings pass through, anything else is a ValueError. -/
def normPwd : Option Pwd → Except PyError (Option Bytes)
  | none => Except.ok none
  | some (Pwd.text t) => Except.ok (some (utf8 t))
  | some (Pwd.raw b) => Except.ok (some b)
  | some (Pwd.badType n) => Except.error (PyError.valueError
      (String.append "password must be a byte string, not " n))

/-- load_private_key: a PrivateKeyInfo source goes straight to _load_key;
otherwise the password is normalized, byte and path sources are parsed
externally, and any other source type is a ValueError naming the type. -/
def load_private_key (src : KeySource) (password : Option Pwd)
    (ext : Externals) (o : Oracle) (s : St) : Except PyError KeyHandle × St :=
  match src with
  | KeySource.info k =>
    if k.cls = KeyCls.priv then _load_key k o s
    else
      match normPwd password with
      | Except.error e => (Except.error e, s)
      | Except.ok _ => (Except.error (PyError.valueError
          "source must be a byte string, unicode string or asn1crypto.keys.PrivateKeyInfo object, not PublicKeyInfo"), s)
  | KeySource.bytes b =>
    match normPwd password with
    | Except.error e => (Except.error e, s)
    | Except.ok pb =>
      match ext.parse_private b pb with
      | Except.error e => (Except.error e, s)
      | Except.ok kr => _load_key kr.fst o s
  | KeySource.path p =>
    match normPwd password with
    | Except.error e => (Except.error e, s)
    | Except.ok pb =>
      match ext.parse_private (ext.readFile p) pb with
      | Except.error e => (Except.error e, s)
      | Except.ok kr => _load_key kr.fst o s
  | KeySource.other n =>
    match normPwd password with
    | Except.error e => (Except.error e, s)
    | Except.ok _ => (Except.error (PyError.valueError
        (String.append "source must be a byte string, unicode string or asn1crypto.keys.PrivateKeyInfo object, not " n)), s)

/-- load_public_key: a PublicKeyInfo source goes straight to _load_key; byte
and path sources are parsed externally. For any other source type the source
formats its error message with the local variable named public_key, which is
unassigned on that branch, so Python raises UnboundLocalError (a NameError)
while building the intended ValueError; the embedding reproduces that. -/
def load_public_key (src : KeySource) (ext : Externals) (o : Oracle)
    (s : St) : Except PyError KeyHandle × St :=
  match src with
  | KeySource.info k =>
    if k.cls = KeyCls.pub then _load_key k o s
    else (Except.error (PyError.nameError "public_key"), s)
  | KeySource.bytes b =>
    match ext.parse_public b with
    | Except.error e => (Except.error e, s)
    | Except.ok kr => _load_key kr.fst o s
  | KeySource.path p =>
    match ext.parse_public (ext.readFile p) with
    | Except.error e => (Except.error e, s)
    | Except.ok kr => _load_key kr.fst o s
  | KeySource.other _ => (Except.error (PyError.nameError "public_key"), s)

/-- The extra-certificates list comprehension of load_pkcs12: load each
decoded certificate in order. -/
def loadCerts : List CertObject → St → List Certificate × St
  | [], s => ([], s)
  | c :: rest, s =>
    let (cert, s1) := _load_x509 c s
    let (certs, s2) := loadCerts rest s1
    (cert :: certs, s2)

/-- load_pkcs12 after the external PKCS#12 decoder has produced the decoded
private keys, leaf certificates and extra certificates: a missing key or leaf
certificate becomes an empty slot, a present one is loaded through the same
key and certificate paths as the standalone loaders, and the extra
certificates are loaded in decode order. -/
def load_pkcs12 (key_info : List KeyObject) (cert_info : List CertObject)
    (extra_certs_info : List CertObject) (o : Oracle) (s : St) :
    Except PyError (Option KeyHandle × Option Certificate × List Certificate) × St :=
  let keyStep : Except PyError (Option KeyHandle) × St :=
    match key_info with
    | [] => (Except.ok none, s)
    | k :: _ =>
      match _load_key k o s with
      | (Except.error e, s1) => (Except.error e, s1)
      | (Except.ok kh, s1) => (Except.ok (some kh), s1)
  match keyStep with
  | (Except.error e, s1) => (Except.error e, s1)
  | (Except.ok keySlot, s1) =>
    let (certSlot, s2) : Option Certificate × St :=
      match cert_info with
      | [] => (none, s1)
      | c :: _ =>
        let (cert, s2) := _load_x509 c s1
        (some cert, s2)
    let (extras, s3) := loadCerts extra_certs_info s2
    (Except.ok (keySlot, certSlot, extras), s3)

/-! ## Trace observers -/

/-- The identifiers released in a trace, in order. -/
def releasesOf (tr : List Event) : List Nat :=
  tr.filterMap fun e =>
    match e with
    | Event.release i => some i
    | _ => none

/-- Whether an object kind is one of the intermediate kinds of the staged
pipelines: wrapped input data, wrapped signature, wrapped digest-length
number, or a transform object. -/
def trackedKind : ObjKind → Bool
  | ObjKind.inData => true
  | ObjKind.sigData => true
  | ObjKind.numData => true
  | ObjKind.tf _ => true
  | _ => false

/-- The identifiers of intermediate pipeline objects created in a trace, in
creation order. -/
def createsTracked (tr : List Event) : List Nat :=
  tr.filterMap fun e =>
    match e with
    | Event.create k i => if trackedKind k then some i else none
    | _ => none

/-- The identifiers of created objects of one given kind, in creation
order. -/
def createsK (k : ObjKind) (tr : List Event) : List Nat :=
  tr.filterMap fun e =>
    match e with
    | Event.create k2 i => if k2 = k then some i else none
    | _ => none

/-- The identifiers of created transform objects, in creation order. -/
def createsTf (tr : List Event) : List Nat :=
  tr.filterMap fun e =>
    match e with
    | Event.create (ObjKind.tf _) i => some i
    | _ => none

/-- Whether a trace sets the digest-type attribute to the given constant. -/
def hasDigestTypeB (tr : List Event) (d : DigestConst) : Bool :=
  tr.any fun e =>
    match e with
    | Event.setAttr _ AttrName.digestType (AttrVal.digest d2) => d2 == d
    | _ => false

/-- Whether a trace sets the digest-length attribute to the given bit
length. -/
def hasDigestLenB (tr : List Event) (n : Nat) : Bool :=
  tr.any fun e =>
    match e with
    | Event.setAttr _ AttrName.digestLength (AttrVal.numRef _ v) => v == n
    | _ => false

/-- Whether a trace sets the digest-length attribute at all. -/
def anyDigestLenB (tr : List Event) : Bool :=
  tr.any fun e =>
    match e with
    | Event.setAttr _ AttrName.digestLength _ => true
    | _ => false

/-- Whether a trace sets the digest-type attribute at all. -/
def anyDigestTypeB (tr : List Event) : Bool :=
  tr.any fun e =>
    match e with
    | Event.setAttr _ AttrName.digestType _ => true
    | _ => false

/-! ## Claims -/

/-- C8: releasing a PrivateKey, PublicKey or Certificate handle is
idempotent: the first release frees the native reference and nulls it, and a
second release of the same handle performs no native release; a Certificate
first tears down its derived public key (if computed) and then releases its
own certificate reference, in that order. -/
theorem c8_release_idempotent :
    (∀ (k : KeyHandle) (r : Nat), k.sec_key_ref = some r →
      KeyHandle.del k = (⟨none, k.asn1⟩, [Event.release r])) ∧
    (∀ k : KeyHandle, (KeyHandle.del (KeyHandle.del k).fst).snd = [] ∧
      (KeyHandle.del (KeyHandle.del k).fst).fst = (KeyHandle.del k).fst) ∧
    (∀ (c : Certificate) (pk : KeyHandle) (r : Nat),
      c.publicKeyCache = some pk → c.sec_certificate_ref = some r →
      (Certificate.del c).snd = (KeyHandle.del pk).snd ++ [Event.release r]) ∧
    (∀ c : Certificate, (Certificate.del (Certificate.del c).fst).snd = []) := by
  refine ⟨?_, ?_, ?_, ?_⟩
  · intro k r hk
    simp [KeyHandle.del, hk]
  · intro k
    cases hk : k.sec_key_ref <;> simp [KeyHandle.del, hk]
  · intro c pk r hpk hr
    simp [Certificate.del, hpk, hr]
  · intro c
    obtain ⟨cr, a, pkc⟩ := c
    cases pkc with
    | none => cases cr <;> simp [Certificate.del, KeyHandle.del]
    | some pk =>
      obtain ⟨kr, ka⟩ := pk
      cases cr <;> cases kr <;> simp [Certificate.del, KeyHandle.del]

/-- C8 witness: a concrete certificate holding reference 5 and a computed
public key holding reference 7 tears down in order key then certificate, and
a second teardown of either handle releases nothing. -/
theorem c8_release_idempotent_witness :
    KeyHandle.del ⟨some 7, ⟨"rsa", ("", ""), "sha1", 1024, 128, KeyCls.pub⟩⟩ =
      (⟨none, ⟨"rsa", ("", ""), "sha1", 1024, 128, KeyCls.pub⟩⟩, [Event.release 7]) ∧
    (Certificate.del
      ⟨some 5, ⟨⟨"rsa", ("", ""), "sha1", 1024, 128, KeyCls.pub⟩, 0⟩,
        some ⟨some 7, ⟨"rsa", ("", ""), "sha1", 1024, 128, KeyCls.pub⟩⟩⟩).snd =
      [Event.release 7, Event.release 5] ∧
    (Certificate.del (Certificate.del
      ⟨some 5, ⟨⟨"rsa", ("", ""), "sha1", 1024, 128, KeyCls.pub⟩, 0⟩,
        some ⟨some 7, ⟨"rsa", ("", ""), "sha1", 1024, 128, KeyCls.pub⟩⟩⟩).fst).snd = [] := by
  refine ⟨?_, ?_, ?_⟩
  · exact c8_release_idempotent.1
      ⟨some 7, ⟨"rsa", ("", ""), "sha1", 1024, 128, KeyCls.pub⟩⟩ 7 rfl
  · exact c8_release_idempotent.2.2.1
      ⟨some 5, ⟨⟨"rsa", ("", ""), "sha1", 1024, 128, KeyCls.pub⟩, 0⟩,
        some ⟨some 7, ⟨"rsa", ("", ""), "sha1", 1024, 128, KeyCls.pub⟩⟩⟩
      ⟨some 7, ⟨"rsa", ("", ""), "sha1", 1024, 128, KeyCls.pub⟩⟩ 5 rfl rfl
  · exact c8_release_idempotent.2.2.2
      ⟨some 5, ⟨⟨"rsa", ("", ""), "sha1", 1024, 128, KeyCls.pub⟩, 0⟩,
        some ⟨some 7, ⟨"rsa", ("", ""), "sha1", 1024, 128, KeyCls.pub⟩⟩⟩

/-- Externals instance used by closed theorems: a parser that always fails
and an empty file system; its behaviour is irrelevant to the branches under
test. -/
def extEx : Externals :=
  ⟨fun _ => Except.error (PyError.valueError "no parse"),
   fun _ _ => Except.error (PyError.valueError "no parse"),
   fun _ => []⟩

/-- C9: load_public_key on a source that is not a byte string, not a unicode
string and not a parsed public-key structure stops before any native call,
but instead of the documented ValueError naming the offending type it raises
the NameError produced by evaluating the unassigned local public_key in the
error message, so the documented contract-violation report never happens.
The input below stands for load_public_key(123) with an int source. -/
theorem c9_load_public_key_bug :
    load_public_key (KeySource.other "int") extEx successOracle initSt =
      (Except.error (PyError.nameError "public_key"), initSt) ∧
    (∀ m : String, Except.error (PyError.nameError "public_key") ≠
      (Except.error (PyError.valueError m) : Except PyError KeyHandle)) := by
  constructor
  · rfl
  · intro m hEq
    exact PyError.noConfusion (Except.error.inj hEq)

/-- The conditions under which the algorithm policy checks of _load_key pass:
an RSA key, a DSA key not tied to the SHA-2 family, or an EC key on one of
the three supported named curves. -/
def keyPolicyOk (ko : KeyObject) : Prop :=
  ko.algorithm = "rsa" ∨
  (ko.algorithm = "dsa" ∧ ko.hash_algo ≠ "sha2") ∨
  (ko.algorithm = "ec" ∧ ko.curve.fst = "named" ∧ ko.curve.snd ∈ supported_curves)

/-- When the policy checks pass and the native service succeeds, _load_key
returns a handle owning a fresh native reference and carrying the parsed
structure unchanged. -/
theorem load_key_ok (ko : KeyObject) (o : Oracle) (s : St)
    (hpol : keyPolicyOk ko) (ho : ∀ n, o.cfFail n = false) :
    ∃ ref s2, _load_key ko o s = (Except.ok ⟨some ref, ko⟩, s2) := by
  refine ⟨s.nextId + 1 + 1, (_load_key ko o s).snd, Prod.ext ?_ rfl⟩
  rcases hpol with hrsa | ⟨hdsa, hh⟩ | ⟨hec, hnamed, hcurve⟩
  · simp [_load_key, loadKeyBody, createObj, createChecked, dictGet,
      key_type_map, hrsa, ho]
  · simp [_load_key, loadKeyBody, createObj, createChecked, dictGet,
      key_type_map, hdsa, hh, ho]
  · simp [_load_key, loadKeyBody, createObj, createChecked, dictGet,
      key_type_map, hec, hnamed, hcurve, ho]

/-- Loading a list of decoded certificates preserves the decoded structures
and their order. -/
theorem loadCerts_map (l : List CertObject) (s : St) :
    (loadCerts l s).fst.map Certificate.asn1 = l := by
  induction l generalizing s with
  | nil => rfl
  | cons c rest ih => simp [loadCerts, _load_x509, createObj, ih]

/-- C10: for every decoder output, load_pkcs12 represents a missing private
key or leaf certificate as an empty slot rather than a failure, populates the
slots from the first decoded element when present, and loads one certificate
per decoded extra certificate preserving the decode order. -/
theorem c10_pkcs12_bundle :
    ∀ (ki : List KeyObject) (ci ei : List CertObject) (o : Oracle),
      (∀ n, o.cfFail n = false) → (∀ k ∈ ki, keyPolicyOk k) →
      ∃ keySlot certSlot extras s2,
        load_pkcs12 ki ci ei o initSt =
          (Except.ok (keySlot, certSlot, extras), s2) ∧
        (keySlot = none ↔ ki = []) ∧
        (certSlot = none ↔ ci = []) ∧
        extras.map Certificate.asn1 = ei ∧
        (∀ kh, keySlot = some kh → ∃ k0 rest, ki = k0 :: rest ∧ kh.asn1 = k0) ∧
        (∀ c, certSlot = some c → ∃ c0 rest, ci = c0 :: rest ∧ c.asn1 = c0) := by
  intro ki ci ei o ho hpol
  cases ki with
  | nil =>
    cases ci with
    | nil =>
      refine ⟨none, none, (loadCerts ei initSt).fst, (loadCerts ei initSt).snd,
        ?_, by simp, by simp, loadCerts_map ei initSt, by simp, by simp⟩
      simp [load_pkcs12]
    | cons c0 crest =>
      refine ⟨none, some ((_load_x509 c0 initSt).fst),
        (loadCerts ei ((_load_x509 c0 initSt).snd)).fst,
        (loadCerts ei ((_load_x509 c0 initSt).snd)).snd,
        ?_, by simp, by simp, loadCerts_map ei _, by simp, ?_⟩
      · simp [load_pkcs12]
      · intro c hc
        refine ⟨c0, crest, rfl, ?_⟩
        have : c = (_load_x509 c0 initSt).fst := by
          exact Option.some.inj hc.symm
        rw [this]
        simp [_load_x509, createObj]
  | cons k0 krest =>
    obtain ⟨ref, s2, hload⟩ :=
      load_key_ok k0 o initSt (hpol k0 (by simp)) ho
    cases ci with
    | nil =>
      refine ⟨some ⟨some ref, k0⟩, none, (loadCerts ei s2).fst,
        (loadCerts ei s2).snd, ?_, by simp, by simp, loadCerts_map ei _,
        ?_, by simp⟩
      · simp [load_pkcs12, hload]
      · intro kh hkh
        exact ⟨k0, krest, rfl, by rw [← Option.some.inj hkh]⟩
    | cons c0 crest =>
      refine ⟨some ⟨some ref, k0⟩, some ((_load_x509 c0 s2).fst),
        (loadCerts ei ((_load_x509 c0 s2).snd)).fst,
        (loadCerts ei ((_load_x509 c0 s2).snd)).snd,
        ?_, by simp, by simp, loadCerts_map ei _, ?_, ?_⟩
      · simp [load_pkcs12, hload]
      · intro kh hkh
        exact ⟨k0, krest, rfl, by rw [← Option.some.inj hkh]⟩
      · intro c hc
        refine ⟨c0, crest, rfl, ?_⟩
        rw [← Option.some.inj hc]
        simp [_load_x509, createObj]

/-- C10 witness: a container with no private key, a leaf certificate, and
two extra certificates yields an empty key slot, a populated certificate
slot, and the two extras in decode order. -/
theorem c10_pkcs12_bundle_witness :
    ∃ keySlot certSlot extras s2,
      load_pkcs12 []
        [⟨⟨"rsa", ("", ""), "sha1", 1024, 128, KeyCls.pub⟩, 10⟩]
        [⟨⟨"rsa", ("", ""), "sha1", 1024, 128, KeyCls.pub⟩, 11⟩,
         ⟨⟨"rsa", ("", ""), "sha1", 1024, 128, KeyCls.pub⟩, 12⟩]
        successOracle initSt =
        (Except.ok (keySlot, certSlot, extras), s2) ∧
      (keySlot = none ↔ ([] : List KeyObject) = []) ∧
      (certSlot = none ↔
        ([⟨⟨"rsa", ("", ""), "sha1", 1024, 128, KeyCls.pub⟩, 10⟩] :
          List CertObject) = []) ∧
      extras.map Certificate.asn1 =
        [⟨⟨"rsa", ("", ""), "sha1", 1024, 128, KeyCls.pub⟩, 11⟩,
         ⟨⟨"rsa", ("", ""), "sha1", 1024, 128, KeyCls.pub⟩, 12⟩] ∧
      (∀ kh, keySlot = some kh →
        ∃ k0 rest, ([] : List KeyObject) = k0 :: rest ∧ kh.asn1 = k0) ∧
      (∀ c, certSlot = some c → ∃ c0 rest,
        ([⟨⟨"rsa", ("", ""), "sha1", 1024, 128, KeyCls.pub⟩, 10⟩] :
          List CertObject) = c0 :: rest ∧ c.asn1 = c0) :=
  c10_pkcs12_bundle [] _ _ successOracle (fun _ => rfl) (by simp)

/-- An EC key whose curve is not a supported named curve is rejected by
_load_key as a PrivateKeyError with the state untouched: no native call has
happened. -/
theorem load_key_ec_reject (ko : KeyObject) (o : Oracle) (s : St)
    (halg : ko.algorithm = "ec")
    (hbad : ko.curve.fst ≠ "named" ∨ ko.curve.snd ∉ supported_curves) :
    ∃ m, _load_key ko o s = (Except.error (PyError.privateKeyError m), s) := by
  by_cases hfst : ko.curve.fst = "named"
  · rcases hbad with h | h
    · exact absurd hfst h
    · exact ⟨"OS X only supports EC keys using the named curves secp256r1, secp384r1 and secp521r1",
        by simp [_load_key, halg, hfst, h]⟩
  · exact ⟨"OS X only supports EC keys using named curves",
      by simp [_load_key, halg, hfst]⟩

/-- C6: a key object whose algorithm is ec loads only on the named curves
secp256r1, secp384r1 and secp521r1; every other curve representation is
rejected as a typed PrivateKeyError with the state untouched, so no native
key-construction call is made, and all three loading paths
(load_private_key, load_public_key, load_pkcs12) reach that same check. -/
theorem c6_ec_curve_guard :
    (∀ (ko : KeyObject) (o : Oracle) (s : St),
      ko.algorithm = "ec" →
      (ko.curve.fst ≠ "named" ∨ ko.curve.snd ∉ supported_curves) →
      ∃ m, _load_key ko o s = (Except.error (PyError.privateKeyError m), s)) ∧
    (∀ (ko : KeyObject) (pwd : Option Pwd) (ext : Externals) (o : Oracle) (s : St),
      ko.cls = KeyCls.priv →
      load_private_key (KeySource.info ko) pwd ext o s = _load_key ko o s) ∧
    (∀ (ko : KeyObject) (ext : Externals) (o : Oracle) (s : St),
      ko.cls = KeyCls.pub →
      load_public_key (KeySource.info ko) ext o s = _load_key ko o s) ∧
    (∀ (ko : KeyObject) (rest : List KeyObject) (ci ei : List CertObject)
      (o : Oracle) (s : St),
      ko.algorithm = "ec" →
      (ko.curve.fst ≠ "named" ∨ ko.curve.snd ∉ supported_curves) →
      ∃ m, load_pkcs12 (ko :: rest) ci ei o s =
        (Except.error (PyError.privateKeyError m), s)) := by
  refine ⟨load_key_ec_reject, ?_, ?_, ?_⟩
  · intro ko pwd ext o s hcls
    simp [load_private_key, hcls]
  · intro ko ext o s hcls
    simp [load_public_key, hcls]
  · intro ko rest ci ei o s halg hbad
    obtain ⟨m, hm⟩ := load_key_ec_reject ko o s halg hbad
    exact ⟨m, by simp [load_pkcs12, hm]⟩

/-- C6 witness: an EC key on the unsupported named curve secp192r1 is
rejected by _load_key, by load_private_key and inside load_pkcs12, each time
leaving the initial state untouched. -/
theorem c6_ec_curve_guard_witness :
    (∃ m, _load_key ⟨"ec", ("named", "secp192r1"), "", 192, 24, KeyCls.priv⟩
      successOracle initSt = (Except.error (PyError.privateKeyError m), initSt)) ∧
    load_private_key
      (KeySource.info ⟨"ec", ("named", "secp192r1"), "", 192, 24, KeyCls.priv⟩)
      none extEx successOracle initSt =
      _load_key ⟨"ec", ("named", "secp192r1"), "", 192, 24, KeyCls.priv⟩
        successOracle initSt ∧
    (∃ m, load_pkcs12 [⟨"ec", ("named", "secp192r1"), "", 192, 24, KeyCls.priv⟩]
      [] [] successOracle initSt =
      (Except.error (PyError.privateKeyError m), initSt)) := by
  refine ⟨?_, ?_, ?_⟩
  · exact c6_ec_curve_guard.1 _ successOracle initSt rfl (Or.inr (by decide))
  · exact c6_ec_curve_guard.2.1 _ none extEx successOracle initSt rfl
  · exact c6_ec_curve_guard.2.2.2 _ [] [] [] successOracle initSt rfl
      (Or.inr (by decide))

/-- C7: a DSA key whose metadata reports the SHA-2 hash family is rejected
by _load_key as a typed PrivateKeyError with the state untouched, before any
native key-construction call; a DSA key associated with SHA-1 passes this
check and, when the native service succeeds, loads into a handle. -/
theorem c7_dsa_sha2_guard :
    (∀ (ko : KeyObject) (o : Oracle) (s : St),
      ko.algorithm = "dsa" → ko.hash_algo = "sha2" →
      _load_key ko o s = (Except.error (PyError.privateKeyError
        "OS X only supports DSA keys based on SHA1"), s)) ∧
    (∀ (ko : KeyObject) (o : Oracle) (s : St),
      ko.algorithm = "dsa" → ko.hash_algo = "sha1" →
      (∀ n, o.cfFail n = false) →
      ∃ ref s2, _load_key ko o s = (Except.ok ⟨some ref, ko⟩, s2)) := by
  constructor
  · intro ko o s halg hh
    simp [_load_key, halg, hh]
  · intro ko o s halg hh ho
    exact load_key_ok ko o s (Or.inr (Or.inl ⟨halg, by rw [hh]; decide⟩)) ho

/-- C7 witness: a concrete SHA-2 DSA key is rejected with the state
untouched, while the same key tied to SHA-1 loads under a successful native
service. -/
theorem c7_dsa_sha2_guard_witness :
    _load_key ⟨"dsa", ("", ""), "sha2", 2048, 256, KeyCls.priv⟩
      successOracle initSt =
      (Except.error (PyError.privateKeyError
        "OS X only supports DSA keys based on SHA1"), initSt) ∧
    (∃ ref s2, _load_key ⟨"dsa", ("", ""), "sha1", 1024, 128, KeyCls.priv⟩
      successOracle initSt =
      (Except.ok ⟨some ref, ⟨"dsa", ("", ""), "sha1", 1024, 128, KeyCls.priv⟩⟩, s2)) :=
  ⟨c7_dsa_sha2_guard.1 _ successOracle initSt rfl rfl,
   c7_dsa_sha2_guard.2 _ successOracle initSt rfl rfl (fun _ => rfl)⟩

/-- The hash names with a nonzero PSS hash byte length. -/
def pss_supported : List String := ["sha1", "sha224", "sha256", "sha384", "sha512"]

/-- C2: for an RSA private key and a supported PSS hash, rsa_pss_sign first
computes the PSS-encoded block externally from the hash name, its byte
length, the key bit size and the message, and then runs exactly the raw
no-padding decrypt-direction pipeline on that block; the run sets no native
digest-type attribute, so no native digest or PSS mode is involved. -/
theorem c2_pss_sign_refines :
    ∀ (pk : KeyHandle) (data : Bytes) (h : String) (o : Oracle) (s : St),
      pk.algo = "rsa" → h ∈ pss_supported →
      (∃ block,
        add_pss_padding h (pss_hash_length h) pk.bit_size data =
          Except.ok block ∧
        rsa_pss_sign pk data h o s = _decrypt pk block Padding.noneKey o s) ∧
      anyDigestTypeB ((rsa_pss_sign pk data h o initSt).snd.trace) = false := by
  intro pk data h o s halg hmem
  have hgoal : ∀ hh : String, pss_hash_length hh ≠ 0 →
      (∃ block,
        add_pss_padding hh (pss_hash_length hh) pk.bit_size data =
          Except.ok block ∧
        rsa_pss_sign pk data hh o s = _decrypt pk block Padding.noneKey o s) := by
    intro hh hlen
    refine ⟨pssBlock (pss_hash_length hh) pk.bit_size data, ?_, ?_⟩
    · simp [add_pss_padding, hlen]
    · simp [rsa_pss_sign, add_pss_padding, hlen, halg, KeyHandle.bit_size]
  have hlen : pss_hash_length h ≠ 0 := by
    fin_cases hmem <;> decide
  refine ⟨hgoal h hlen, ?_⟩
  simp only [rsa_pss_sign, halg, add_pss_padding, hlen, if_neg, ite_false,
    if_false]
  simp only [ne_eq, not_true_eq_false, if_false, if_neg hlen]
  cases hf0 : o.cfFail 0 <;> cases hf1 : o.cfFail 1 <;>
    cases hf2 : o.cfFail 2 <;> cases hf3 : o.cfFail 3 <;>
    simp [_decrypt, decBody, createObj, createChecked, setAttrC, executeData,
      encFinally, releaseOpt, releaseObj, initSt, anyDigestTypeB,
      hf0, hf1, hf2, hf3]

/-- C2 witness: a concrete 1024-bit RSA private key signing one byte with
sha256 routes through the external padding primitive and the raw decrypt
pipeline, with no digest-type attribute in the trace. -/
theorem c2_pss_sign_refines_witness :
    (∃ block,
      add_pss_padding "sha256" (pss_hash_length "sha256") 1024 [7] =
        Except.ok block ∧
      rsa_pss_sign ⟨some 0, ⟨"rsa", ("", ""), "sha1", 1024, 128, KeyCls.priv⟩⟩
          [7] "sha256" successOracle initSt =
        _decrypt ⟨some 0, ⟨"rsa", ("", ""), "sha1", 1024, 128, KeyCls.priv⟩⟩
          block Padding.noneKey successOracle initSt) ∧
    anyDigestTypeB
      ((rsa_pss_sign ⟨some 0, ⟨"rsa", ("", ""), "sha1", 1024, 128, KeyCls.priv⟩⟩
        [7] "sha256" successOracle initSt).snd.trace) = false :=
  c2_pss_sign_refines
    ⟨some 0, ⟨"rsa", ("", ""), "sha1", 1024, 128, KeyCls.priv⟩⟩
    [7] "sha256" successOracle initSt rfl (by decide)

/-- Characterization of the SHA-2 bit-length table used by the pipelines. -/
theorem sha2_length_mem (h : String) (n : Nat) (hs : sha2_length h = some n) :
    (h = "sha224" ∧ n = 224) ∨ (h = "sha256" ∧ n = 256) ∨
    (h = "sha384" ∧ n = 384) ∨ (h = "sha512" ∧ n = 512) := by
  unfold sha2_length at hs
  split at hs <;> simp_all

set_option maxHeartbeats 2000000 in
/-- C5: in the sign and verify pipelines, md5 and sha1 map to their dedicated
digest constants and set no digest-length attribute, while every SHA-2 family
name maps to the single kSecDigestSHA2 constant together with a digest-length
attribute carrying its bit length (224, 256, 384 or 512). -/
theorem c5_digest_mapping :
    (hash_constant "md5" = some DigestConst.md5 ∧
     hash_constant "sha1" = some DigestConst.sha1 ∧
     (∀ h ∈ sha2_hashes, hash_constant h = some DigestConst.sha2)) ∧
    (∀ (key : KeyHandle) (data signature : Bytes) (o : Oracle),
      (∀ n, o.cfFail n = false) →
      (hasDigestTypeB ((_sign key data "md5" o initSt).snd.trace)
          DigestConst.md5 = true ∧
        anyDigestLenB ((_sign key data "md5" o initSt).snd.trace) = false) ∧
      (hasDigestTypeB ((_sign key data "sha1" o initSt).snd.trace)
          DigestConst.sha1 = true ∧
        anyDigestLenB ((_sign key data "sha1" o initSt).snd.trace) = false) ∧
      (∀ h n, sha2_length h = some n →
        hasDigestTypeB ((_sign key data h o initSt).snd.trace)
          DigestConst.sha2 = true ∧
        hasDigestLenB ((_sign key data h o initSt).snd.trace) n = true) ∧
      (hasDigestTypeB ((_verify key signature data "md5" o initSt).snd.trace)
          DigestConst.md5 = true ∧
        anyDigestLenB ((_verify key signature data "md5" o initSt).snd.trace) = false) ∧
      (hasDigestTypeB ((_verify key signature data "sha1" o initSt).snd.trace)
          DigestConst.sha1 = true ∧
        anyDigestLenB ((_verify key signature data "sha1" o initSt).snd.trace) = false) ∧
      (∀ h n, sha2_length h = some n →
        hasDigestTypeB ((_verify key signature data h o initSt).snd.trace)
          DigestConst.sha2 = true ∧
        hasDigestLenB ((_verify key signature data h o initSt).snd.trace) n = true)) := by
  refine ⟨⟨rfl, rfl, by decide⟩, ?_⟩
  intro key data signature o ho
  have hsha2 : ∀ (h : String) (n : Nat), sha2_length h = some n →
      (hasDigestTypeB ((_sign key data h o initSt).snd.trace)
        DigestConst.sha2 = true ∧
       hasDigestLenB ((_sign key data h o initSt).snd.trace) n = true) ∧
      (hasDigestTypeB ((_verify key signature data h o initSt).snd.trace)
        DigestConst.sha2 = true ∧
       hasDigestLenB ((_verify key signature data h o initSt).snd.trace) n = true) := by
    intro h n hsl
    rcases sha2_length_mem h n hsl with ⟨h1, h2⟩ | ⟨h1, h2⟩ | ⟨h1, h2⟩ | ⟨h1, h2⟩ <;>
      subst h1 <;> subst h2 <;>
      by_cases halg : key.algo = "rsa" <;>
      cases hv4 : o.verifyOut 4 <;> cases hv5 : o.verifyOut 5 <;>
      refine ⟨⟨?_, ?_⟩, ?_, ?_⟩ <;>
      simp [_sign, signBody, _verify, verifyBody, setSha2Length, createObj,
        createChecked, setAttrC, executeData, executeBool, dictGet,
        hash_constant, sha2_length, sha2_hashes, supported_hashes, sigFinally,
        releaseOpt, releaseObj, initSt, hasDigestTypeB, hasDigestLenB,
        anyDigestLenB, ho, halg, hv4, hv5]
  refine ⟨?_, ?_, fun h n hsl => (hsha2 h n hsl).1, ?_, ?_,
    fun h n hsl => (hsha2 h n hsl).2⟩ <;>
  by_cases halg : key.algo = "rsa" <;>
  cases hv3 : o.verifyOut 3 <;> cases hv4 : o.verifyOut 4 <;>
  refine ⟨?_, ?_⟩ <;>
  simp [_sign, signBody, _verify, verifyBody, setSha2Length, createObj,
    createChecked, setAttrC, executeData, executeBool, dictGet,
    hash_constant, sha2_length, sha2_hashes, supported_hashes, sigFinally,
    releaseOpt, releaseObj, initSt, hasDigestTypeB, hasDigestLenB,
    anyDigestLenB, ho, halg, hv3, hv4]

/-- C5 witness: on a concrete RSA key under a successful native service,
signing with md5 sets the dedicated md5 digest constant and no digest
length, and signing with sha256 sets the SHA-2 family constant together with
digest length 256. -/
theorem c5_digest_mapping_witness :
    hasDigestTypeB ((_sign ⟨some 0, ⟨"rsa", ("", ""), "sha1", 1024, 128, KeyCls.priv⟩⟩
        [1] "md5" successOracle initSt).snd.trace) DigestConst.md5 = true ∧
    anyDigestLenB ((_sign ⟨some 0, ⟨"rsa", ("", ""), "sha1", 1024, 128, KeyCls.priv⟩⟩
        [1] "md5" successOracle initSt).snd.trace) = false ∧
    hasDigestTypeB ((_sign ⟨some 0, ⟨"rsa", ("", ""), "sha1", 1024, 128, KeyCls.priv⟩⟩
        [1] "sha256" successOracle initSt).snd.trace) DigestConst.sha2 = true ∧
    hasDigestLenB ((_sign ⟨some 0, ⟨"rsa", ("", ""), "sha1", 1024, 128, KeyCls.priv⟩⟩
        [1] "sha256" successOracle initSt).snd.trace) 256 = true :=
  ⟨(c5_digest_mapping.2 ⟨some 0, ⟨"rsa", ("", ""), "sha1", 1024, 128, KeyCls.priv⟩⟩
      [1] [2] successOracle (fun _ => rfl)).1.1,
   (c5_digest_mapping.2 ⟨some 0, ⟨"rsa", ("", ""), "sha1", 1024, 128, KeyCls.priv⟩⟩
      [1] [2] successOracle (fun _ => rfl)).1.2,
   ((c5_digest_mapping.2 ⟨some 0, ⟨"rsa", ("", ""), "sha1", 1024, 128, KeyCls.priv⟩⟩
      [1] [2] successOracle (fun _ => rfl)).2.2.1 "sha256" 256 rfl).1,
   ((c5_digest_mapping.2 ⟨some 0, ⟨"rsa", ("", ""), "sha1", 1024, 128, KeyCls.priv⟩⟩
      [1] [2] successOracle (fun _ => rfl)).2.2.1 "sha256" 256 rfl).2⟩

/-- The oracle whose native calls succeed but whose verify transform answers
false. -/
def rejectOracle : Oracle := ⟨fun _ => false, fun _ => [], fun _ => false⟩

/-- The oracle whose fallible native calls all fail. -/
def failOracle : Oracle := ⟨fun _ => true, fun _ => [], fun _ => true⟩

set_option maxHeartbeats 2000000 in
/-- C3: when a verify operation completes its native calls but the signature
does not match — the native verify transform returning false, or the external
PSS check returning false — the outcome is SignatureError, and that outcome
is a different constructor from the OSError produced when a native call
fails, which is the outcome whenever the error reference of a staged call is
set. -/
theorem c3_signature_invalid_distinct :
    (∀ (key : KeyHandle) (signature data : Bytes) (h : String) (o : Oracle),
      h ∈ supported_hashes → (∀ n, o.cfFail n = false) →
      (∀ n, o.verifyOut n = false) →
      ∃ s2, _verify key signature data h o initSt =
        (Except.error (PyError.signatureError "Signature is invalid"), s2)) ∧
    (∀ (key : KeyHandle) (signature data : Bytes) (h : String) (o : Oracle),
      key.algo = "rsa" → h ∈ pss_supported → (∀ n, o.cfFail n = false) →
      o.execBytes 3 ≠ pssBlock (pss_hash_length h) key.bit_size data →
      ∃ s2, rsa_pss_verify key signature data h o initSt =
        (Except.error (PyError.signatureError "Signature is invalid"), s2)) ∧
    (∀ (key : KeyHandle) (signature data : Bytes) (h : String) (o : Oracle),
      h ∈ supported_hashes → o.cfFail 0 = true →
      ∃ m s2, _verify key signature data h o initSt =
        (Except.error (PyError.osError m), s2)) ∧
    (∀ m1 m2 : String,
      (PyError.signatureError m1 : PyError) ≠ PyError.osError m2) := by
  refine ⟨?_, ?_, ?_, by intro m1 m2 hEq; cases hEq⟩
  · intro key signature data h o hmem ho hv
    fin_cases hmem <;> by_cases halg : key.algo = "rsa" <;>
      simp [_verify, verifyBody, setSha2Length, createObj, createChecked,
        setAttrC, executeBool, dictGet, hash_constant, sha2_length,
        sha2_hashes, supported_hashes, sigFinally, releaseOpt, releaseObj,
        initSt, ho, hv, halg]
  · intro key signature data h o halg hmem ho hne
    fin_cases hmem <;>
      simp_all [rsa_pss_verify, _encrypt, encBody, createObj, createChecked,
        setAttrC, executeData, encFinally, releaseOpt, releaseObj, initSt,
        verify_pss_padding, pss_hash_length, KeyHandle.bit_size, ho, halg]
  · intro key signature data h o hmem hf
    fin_cases hmem <;>
      simp [_verify, verifyBody, createObj, createChecked, dictGet,
        supported_hashes, sigFinally, releaseOpt, releaseObj, initSt, hf]

/-- C3 witness: on a concrete RSA key, a false native verify verdict and a
failed external PSS check each produce SignatureError, a failing native call
produces OSError, and the two constructors differ. -/
theorem c3_signature_invalid_distinct_witness :
    (∃ s2, _verify ⟨some 0, ⟨"rsa", ("", ""), "sha1", 1024, 128, KeyCls.pub⟩⟩
      [9] [5] "sha256" rejectOracle initSt =
      (Except.error (PyError.signatureError "Signature is invalid"), s2)) ∧
    (∃ s2, rsa_pss_verify ⟨some 0, ⟨"rsa", ("", ""), "sha1", 1024, 128, KeyCls.pub⟩⟩
      [9] [5] "sha256" successOracle initSt =
      (Except.error (PyError.signatureError "Signature is invalid"), s2)) ∧
    (∃ m s2, _verify ⟨some 0, ⟨"rsa", ("", ""), "sha1", 1024, 128, KeyCls.pub⟩⟩
      [9] [5] "sha256" failOracle initSt =
      (Except.error (PyError.osError m), s2)) ∧
    (PyError.signatureError "Signature is invalid" : PyError) ≠
      PyError.osError "native object creation failed" :=
  ⟨c3_signature_invalid_distinct.1
      ⟨some 0, ⟨"rsa", ("", ""), "sha1", 1024, 128, KeyCls.pub⟩⟩
      [9] [5] "sha256" rejectOracle (by decide) (fun _ => rfl) (fun _ => rfl),
   c3_signature_invalid_distinct.2.1
      ⟨some 0, ⟨"rsa", ("", ""), "sha1", 1024, 128, KeyCls.pub⟩⟩
      [9] [5] "sha256" successOracle rfl (by decide) (fun _ => rfl) (by decide),
   c3_signature_invalid_distinct.2.2.1
      ⟨some 0, ⟨"rsa", ("", ""), "sha1", 1024, 128, KeyCls.pub⟩⟩
      [9] [5] "sha256" failOracle (by decide) rfl,
   c3_signature_invalid_distinct.2.2.2 "Signature is invalid"
      "native object creation failed"⟩

/-- A hash name outside the supported set has PSS hash byte length 0. -/
theorem pss_hash_length_eq_zero (h : String) (hmem : h ∉ supported_hashes) :
    pss_hash_length h = 0 := by
  unfold pss_hash_length
  split <;> simp_all [supported_hashes]

/-- C1 counterexample: with an RSA public key and the unsupported hash name
md4, rsa_pss_verify performs native calls (the raw encrypt pipeline runs and
its trace is nonempty) before the unsupported hash is rejected, so it is not
true that every verification entry point raises a contract violation before
any native call. -/
theorem c1_counterexample :
    (rsa_pss_verify ⟨some 0, ⟨"rsa", ("", ""), "sha1", 1024, 128, KeyCls.pub⟩⟩
      [9] [5] "md4" successOracle initSt).snd.trace ≠ [] ∧
    (rsa_pss_verify ⟨some 0, ⟨"rsa", ("", ""), "sha1", 1024, 128, KeyCls.pub⟩⟩
      [9] [5] "md4" successOracle initSt).fst =
      Except.error (PyError.valueError
        "unsupported hash algorithm for PSS padding") := by
  constructor
  · decide
  · rfl

set_option maxHeartbeats 1000000 in
/-- C1 amended: for every hash name outside the supported set, the entry
points rsa_pkcs1v15_sign, dsa_sign, ecdsa_sign, rsa_pss_sign,
rsa_pkcs1v15_verify, dsa_verify and ecdsa_verify raise a ValueError with the
state unchanged, hence before any native call; rsa_pss_verify is the
exception: on an RSA key it always performs the native raw-encrypt calls
first and rejects the unsupported hash only afterwards, through the external
padding primitive. -/
theorem c1_amended :
    (∀ h : String, h ∉ supported_hashes →
      ∀ (key : KeyHandle) (signature data : Bytes) (o : Oracle) (s : St),
      (∃ m, rsa_pkcs1v15_sign key data h o s =
        (Except.error (PyError.valueError m), s)) ∧
      (∃ m, dsa_sign key data h o s =
        (Except.error (PyError.valueError m), s)) ∧
      (∃ m, ecdsa_sign key data h o s =
        (Except.error (PyError.valueError m), s)) ∧
      (∃ m, rsa_pss_sign key data h o s =
        (Except.error (PyError.valueError m), s)) ∧
      (∃ m, rsa_pkcs1v15_verify key signature data h o s =
        (Except.error (PyError.valueError m), s)) ∧
      (∃ m, dsa_verify key signature data h o s =
        (Except.error (PyError.valueError m), s)) ∧
      (∃ m, ecdsa_verify key signature data h o s =
        (Except.error (PyError.valueError m), s))) ∧
    (∀ h : String, h ∉ supported_hashes →
      ∀ (key : KeyHandle) (signature data : Bytes) (o : Oracle),
      key.algo = "rsa" →
      (rsa_pss_verify key signature data h o initSt).snd.trace ≠ []) := by
  constructor
  · intro h hmem key signature data o s
    have hp0 : pss_hash_length h = 0 := pss_hash_length_eq_zero h hmem
    refine ⟨?_, ?_, ?_, ?_, ?_, ?_, ?_⟩
    · by_cases halg : key.algo = "rsa" <;>
        simp [rsa_pkcs1v15_sign, _sign, halg, hmem]
    · by_cases halg : key.algo = "dsa" <;>
        simp [dsa_sign, _sign, halg, hmem]
    · by_cases halg : key.algo = "ec" <;>
        simp [ecdsa_sign, _sign, halg, hmem]
    · by_cases halg : key.algo = "rsa" <;>
        simp [rsa_pss_sign, add_pss_padding, hp0, halg]
    · by_cases halg : key.algo = "rsa" <;>
        simp [rsa_pkcs1v15_verify, _verify, halg, hmem]
    · by_cases halg : key.algo = "dsa" <;>
        simp [dsa_verify, _verify, halg, hmem]
    · by_cases halg : key.algo = "ec" <;>
        simp [ecdsa_verify, _verify, halg, hmem]
  · intro h hmem key signature data o halg
    have hp0 : pss_hash_length h = 0 := pss_hash_length_eq_zero h hmem
    cases hf0 : o.cfFail 0 <;> cases hf1 : o.cfFail 1 <;>
      cases hf2 : o.cfFail 2 <;> cases hf3 : o.cfFail 3 <;>
      simp [rsa_pss_verify, _encrypt, encBody, createObj, createChecked,
        setAttrC, executeData, encFinally, releaseOpt, releaseObj, initSt,
        verify_pss_padding, hp0, halg, hf0, hf1, hf2, hf3]

/-- C1 amended witness: with the unsupported hash name md4, a concrete RSA
key makes every entry point except rsa_pss_verify fail with a ValueError and
an unchanged state, while rsa_pss_verify leaves a nonempty native trace. -/
theorem c1_amended_witness :
    ((∃ m, rsa_pkcs1v15_sign ⟨some 0, ⟨"rsa", ("", ""), "sha1", 1024, 128, KeyCls.priv⟩⟩
        [5] "md4" successOracle initSt =
        (Except.error (PyError.valueError m), initSt)) ∧
     (∃ m, dsa_sign ⟨some 0, ⟨"rsa", ("", ""), "sha1", 1024, 128, KeyCls.priv⟩⟩
        [5] "md4" successOracle initSt =
        (Except.error (PyError.valueError m), initSt)) ∧
     (∃ m, ecdsa_sign ⟨some 0, ⟨"rsa", ("", ""), "sha1", 1024, 128, KeyCls.priv⟩⟩
        [5] "md4" successOracle initSt =
        (Except.error (PyError.valueError m), initSt)) ∧
     (∃ m, rsa_pss_sign ⟨some 0, ⟨"rsa", ("", ""), "sha1", 1024, 128, KeyCls.priv⟩⟩
        [5] "md4" successOracle initSt =
        (Except.error (PyError.valueError m), initSt)) ∧
     (∃ m, rsa_pkcs1v15_verify ⟨some 0, ⟨"rsa", ("", ""), "sha1", 1024, 128, KeyCls.priv⟩⟩
        [9] [5] "md4" successOracle initSt =
        (Except.error (PyError.valueError m), initSt)) ∧
     (∃ m, dsa_verify ⟨some 0, ⟨"rsa", ("", ""), "sha1", 1024, 128, KeyCls.priv⟩⟩
        [9] [5] "md4" successOracle initSt =
        (Except.error (PyError.valueError m), initSt)) ∧
     (∃ m, ecdsa_verify ⟨some 0, ⟨"rsa", ("", ""), "sha1", 1024, 128, KeyCls.priv⟩⟩
        [9] [5] "md4" successOracle initSt =
        (Except.error (PyError.valueError m), initSt))) ∧
    (rsa_pss_verify ⟨some 0, ⟨"rsa", ("", ""), "sha1", 1024, 128, KeyCls.priv⟩⟩
      [9] [5] "md4" successOracle initSt).snd.trace ≠ [] :=
  ⟨c1_amended.1 "md4" (by decide)
      ⟨some 0, ⟨"rsa", ("", ""), "sha1", 1024, 128, KeyCls.priv⟩⟩
      [9] [5] successOracle initSt,
   c1_amended.2 "md4" (by decide)
      ⟨some 0, ⟨"rsa", ("", ""), "sha1", 1024, 128, KeyCls.priv⟩⟩
      [9] [5] successOracle rfl⟩

/-- Every run of the encrypt pipeline releases exactly the tracked
intermediate objects it created, in the fixed order of its finally block:
wrapped input data first, then the transform. -/
theorem enc_cleanup (key : KeyHandle) (data : Bytes) (p : Padding) (o : Oracle) :
    releasesOf ((_encrypt key data p o initSt).snd.trace) =
      createsK ObjKind.inData ((_encrypt key data p o initSt).snd.trace) ++
      createsTf ((_encrypt key data p o initSt).snd.trace) := by
  simp only [_encrypt, encBody, createObj, createChecked, setAttrC,
    executeData, encFinally, releaseOpt, releaseObj, initSt]
  iterate 6 (all_goals (first
    | (split_ifs <;> simp only [_encrypt, encBody, createObj, createChecked,
        setAttrC, executeData, encFinally, releaseOpt, releaseObj, initSt])
    | skip))
  all_goals simp [releasesOf, createsK, createsTf]

/-- Every run of the decrypt pipeline releases exactly the tracked
intermediate objects it created, in the fixed order of its finally block:
wrapped input data first, then the transform. -/
theorem dec_cleanup (key : KeyHandle) (data : Bytes) (p : Padding) (o : Oracle) :
    releasesOf ((_decrypt key data p o initSt).snd.trace) =
      createsK ObjKind.inData ((_decrypt key data p o initSt).snd.trace) ++
      createsTf ((_decrypt key data p o initSt).snd.trace) := by
  simp only [_decrypt, decBody, createObj, createChecked, setAttrC,
    executeData, encFinally, releaseOpt, releaseObj, initSt]
  iterate 6 (all_goals (first
    | (split_ifs <;> simp only [_decrypt, decBody, createObj, createChecked,
        setAttrC, executeData, encFinally, releaseOpt, releaseObj, initSt])
    | skip))
  all_goals simp [releasesOf, createsK, createsTf]

set_option maxHeartbeats 2000000 in
/-- Every run of the sign pipeline releases exactly the tracked intermediate
objects it created, in the fixed order of its finally block: transform,
wrapped signature, wrapped input data, wrapped digest length. -/
theorem sign_cleanup (key : KeyHandle) (data : Bytes) (h : String) (o : Oracle) :
    releasesOf ((_sign key data h o initSt).snd.trace) =
      createsTf ((_sign key data h o initSt).snd.trace) ++
      createsK ObjKind.sigData ((_sign key data h o initSt).snd.trace) ++
      createsK ObjKind.inData ((_sign key data h o initSt).snd.trace) ++
      createsK ObjKind.numData ((_sign key data h o initSt).snd.trace) := by
  cases hhc : hash_constant h <;> cases hsl : sha2_length h
  all_goals simp only [_sign, signBody, setSha2Length, createObj,
    createChecked, setAttrC, executeData, dictGet, sigFinally, releaseOpt,
    releaseObj, initSt, hhc, hsl]
  iterate 10 (all_goals (first
    | (split_ifs <;> simp only [_sign, signBody, setSha2Length, createObj,
        createChecked, setAttrC, executeData, dictGet, sigFinally, releaseOpt,
        releaseObj, initSt, hhc, hsl])
    | skip))
  all_goals simp [releasesOf, createsK, createsTf]

set_option maxHeartbeats 2000000 in
/-- Every run of the verify pipeline releases exactly the tracked
intermediate objects it created, in the fixed order of its finally block:
transform, wrapped signature, wrapped input data, wrapped digest length. -/
theorem verify_cleanup (key : KeyHandle) (signature data : Bytes) (h : String)
    (o : Oracle) :
    releasesOf ((_verify key signature data h o initSt).snd.trace) =
      createsTf ((_verify key signature data h o initSt).snd.trace) ++
      createsK ObjKind.sigData ((_verify key signature data h o initSt).snd.trace) ++
      createsK ObjKind.inData ((_verify key signature data h o initSt).snd.trace) ++
      createsK ObjKind.numData ((_verify key signature data h o initSt).snd.trace) := by
  cases hhc : hash_constant h <;> cases hsl : sha2_length h
  all_goals simp only [_verify, verifyBody, setSha2Length, createObj,
    createChecked, setAttrC, executeBool, dictGet, sigFinally, releaseOpt,
    releaseObj, initSt, hhc, hsl]
  iterate 10 (all_goals (first
    | (split_ifs <;> simp only [_verify, verifyBody, setSha2Length, createObj,
        createChecked, setAttrC, executeBool, dictGet, sigFinally, releaseOpt,
        releaseObj, initSt, hhc, hsl])
    | skip))
  all_goals simp [releasesOf, createsK, createsTf]

/-- C4 counterexample: a successful run of the encrypt pipeline on a concrete
key creates the wrapped input data (reference 0) and then the transform
(reference 1), and its finally block releases them as [0, 1] — the creation
order, not the reverse creation order [1, 0] asserted by the claim. -/
theorem c4_counterexample :
    releasesOf ((_encrypt ⟨some 9, ⟨"rsa", ("", ""), "sha1", 1024, 128, KeyCls.pub⟩⟩
      [1, 2] Padding.oaep successOracle initSt).snd.trace) = [0, 1] ∧
    (createsTracked ((_encrypt ⟨some 9, ⟨"rsa", ("", ""), "sha1", 1024, 128, KeyCls.pub⟩⟩
      [1, 2] Padding.oaep successOracle initSt).snd.trace)).reverse = [1, 0] ∧
    ([0, 1] : List Nat) ≠ [1, 0] := by
  refine ⟨by decide, by decide, by decide⟩

/-- C4 amended: in every staged pipeline operation, on every exit path, each
tracked intermediate native object that was created (wrapped input data,
wrapped signature, wrapped digest-length number, the transform) is released
exactly once, but the release order is the fixed order of the finally block
of each function — input data then transform for the encrypt and decrypt
pipelines; transform, signature, input data, digest length for the sign and
verify pipelines — which is not the reverse of creation order. -/
theorem c4_amended :
    (∀ (key : KeyHandle) (data : Bytes) (p : Padding) (o : Oracle),
      releasesOf ((_encrypt key data p o initSt).snd.trace) =
        createsK ObjKind.inData ((_encrypt key data p o initSt).snd.trace) ++
        createsTf ((_encrypt key data p o initSt).snd.trace)) ∧
    (∀ (key : KeyHandle) (data : Bytes) (p : Padding) (o : Oracle),
      releasesOf ((_decrypt key data p o initSt).snd.trace) =
        createsK ObjKind.inData ((_decrypt key data p o initSt).snd.trace) ++
        createsTf ((_decrypt key data p o initSt).snd.trace)) ∧
    (∀ (key : KeyHandle) (data : Bytes) (h : String) (o : Oracle),
      releasesOf ((_sign key data h o initSt).snd.trace) =
        createsTf ((_sign key data h o initSt).snd.trace) ++
        createsK ObjKind.sigData ((_sign key data h o initSt).snd.trace) ++
        createsK ObjKind.inData ((_sign key data h o initSt).snd.trace) ++
        createsK ObjKind.numData ((_sign key data h o initSt).snd.trace)) ∧
    (∀ (key : KeyHandle) (signature data : Bytes) (h : String) (o : Oracle),
      releasesOf ((_verify key signature data h o initSt).snd.trace) =
        createsTf ((_verify key signature data h o initSt).snd.trace) ++
        createsK ObjKind.sigData ((_verify key signature data h o initSt).snd.trace) ++
        createsK ObjKind.inData ((_verify key signature data h o initSt).snd.trace) ++
        createsK ObjKind.numData ((_verify key signature data h o initSt).snd.trace)) :=
  ⟨enc_cleanup, dec_cleanup, sign_cleanup, verify_cleanup⟩
